import Mathlib

/-!
# Verification of the sublime-cli command pipeline (`sublime/cli/decorator.py`)

A shallow embedding of the CLI decorator module: API-key resolution
(`pass_api_client`), error classification (`handle_exceptions`), result
formatting and emission (`echo_result`), the analyze pre-flight check
(`analyze_command`'s wrapper) and the not-implemented probe
(`not_implemented_command`), together with theorems about the behaviour
each spec sentence describes.

External collaborators (click echo/exit, the `FORMATTERS` registry, the
remote API) are modelled as parameters or as outcome data; Python string
operations used by the code (`str.strip`, `os.path.splitext`,
`os.path.basename`, `str.format`) are translated to Lean functions with
the same semantics.
-/

namespace SublimeCli

/-- Python `s.strip(c)` for a one-character strip set: removes every
occurrence of `c` from BOTH ends of the string (leading and trailing). -/
def pyStrip (c : Char) (s : String) : String :=
  ⟨((s.data.dropWhile (fun x => x = c)).reverse.dropWhile (fun x => x = c)).reverse⟩

/-- `str.strip("\n")` as used at `decorator.py` lines 60 and 68. -/
def stripNl (s : String) : String := pyStrip '\n' s

/-- `os.path.basename` on POSIX paths: the component after the last `/`
(`p[p.rfind('/')+1:]`), i.e. the longest `/`-free suffix. -/
def basenameChars (p : List Char) : List Char :=
  (p.reverse.takeWhile (fun c => c ≠ '/')).reverse

/-- The complement of `basenameChars`: everything up to and including the
last `/` (empty when the path has no `/`). -/
def dirChars (p : List Char) : List Char :=
  (p.reverse.dropWhile (fun c => c ≠ '/')).reverse

/-- The extension-splitting rule of `os.path.splitext`, applied to a path
component with no separator: split at the last `.` provided some character
strictly before it is not a `.` (so names consisting only of leading dots,
like `.bashrc`, are not split).  Returns `(root, ext)` with
`root ++ ext = b`. -/
def splitextBase (b : List Char) : List Char × List Char :=
  let afterRev := b.reverse.takeWhile (fun c => c ≠ '.')
  let restRev := b.reverse.dropWhile (fun c => c ≠ '.')
  match restRev with
  | [] => (b, [])
  | _ :: t =>
      if t.any (fun c => c ≠ '.') then
        (t.reverse, '.' :: afterRev.reverse)
      else
        (b, [])

/-- `os.path.splitext` on POSIX paths: the directory part is untouched and
dots inside it never count; the basename is split by `splitextBase`. -/
def splitextChars (p : List Char) : List Char × List Char :=
  let b := basenameChars p
  (dirChars p ++ (splitextBase b).1, (splitextBase b).2)

/-- String wrapper for `os.path.basename`. -/
def basenameStr (s : String) : String := ⟨basenameChars s.data⟩

/-- String wrapper for `os.path.splitext`, first component (the root). -/
def splitextRootStr (s : String) : String := ⟨(splitextChars s.data).1⟩

/-- The persisted configuration returned by `load_config()`; only its
`api_key` field is read by the decorator module. -/
structure ConfigT where
  api_key : String
deriving Repr, DecidableEq

/-- Outcome of `pass_api_client`'s wrapper before the wrapped command body
runs: either the process exits (echoing a help message, exit code −1), or
the `Sublime` client facade is constructed bound to `key` and the wrapped
function is invoked with it. -/
inductive KeyResolution where
  | exit (stdout : List String) (code : Int)
  | client (key : String)
deriving Repr, DecidableEq

/-- The help message echoed by `pass_api_client` when no API key is found
(decorator.py lines 134-143).  Python's adjacent string literals
concatenate at compile time into the single literal below, and `{!r}`
renders `prog setup` in single quotes. -/
def apiKeyNotFoundMsg (progName : String) : String :=
  "\nError: API key not found.\n\nTo fix this problem, please use any of the following methods (in order of precedence):\n- Pass it using the -k/--api-key option.\n- Set it in the SUBLIME_API_KEY environment variable.\n- Run '"
  ++ progName ++ " setup' to save it to the configuration file.\n"

/-- `pass_api_client` (decorator.py lines 125-148): take the `-k` flag
value from the parsed parameters (`none` when the option was not given),
load the persisted configuration; when the flag is absent and the
persisted key is falsy (empty), echo the help message and exit −1,
otherwise construct the client with the flag value if present, else with
the persisted key. -/
def pass_api_client (flag : Option String) (config : ConfigT)
    (progName : String) : KeyResolution :=
  match flag with
  | some k => .client k
  | none =>
      if config.api_key = "" then
        .exit [apiKeyNotFoundMsg progName ++ "\n"] (-1)
      else
        .client config.api_key

/-- Result payloads returned by the API, as the dynamic dictionary values
the Python code manipulates; the only structural operation the decorator
performs on them is the key lookup `result["message_data_model"]`. -/
inductive Value where
  | str (s : String)
  | obj (fields : List (String × Value))

/-- Python dictionary lookup `v[key]` on an object, `none` when the key is
absent (a `KeyError` in Python) or the value is not an object. -/
def Value.lookup : Value → String → Option Value
  | .str _, _ => none
  | .obj fields, key =>
      (fields.find? (fun p => p.1 = key)).map (fun p => p.2)

/-- The format option `-f`, a closed `click.Choice(["json", "txt"])`. -/
inductive OutputFormat where
  | json
  | txt
deriving Repr, DecidableEq

/-- `context.params` as seen by `echo_result`: the parsed option values of
the invoked command.  Absent option values are `none` (click stores
`None`); a key a command never defines is also modelled as `none`
(`params.get` returns its default then), which is how `verbose` behaves
for enrich/analyze/query. -/
structure Params where
  api_key : Option String := none
  input_file : Option String := none
  output_file : Option String := none
  output_format : OutputFormat
  verbose : Option Bool := none
  detections_file : Option String := none
  detection_str : Option String := none
  query : Option String := none
deriving Repr, DecidableEq

/-- Modelled from the spec: the `FORMATTERS` registry
(`sublime/cli/formatter.py`, not under `src/`): the `json` entry is a
single rendering function, the `txt` entry is a per-command table of
rendering functions (so it also carries the `enrich_details` entry); each
rendering function maps `(result, verbose)` to text. -/
structure Formatters where
  json : Value → Bool → String
  txt : String → Value → Bool → String

/-- `FORMATTERS[output_format]`, followed by the per-command lookup
`formatter[context.command.name]` when the entry is a table (decorator.py
lines 37-41). -/
def resolveFormatter (fmts : Formatters) (fmt : OutputFormat)
    (cmdName : String) : Value → Bool → String :=
  match fmt with
  | .json => fmts.json
  | .txt => fmts.txt cmdName

/-- The extension appended to the synthesized enrich output file name
(decorator.py lines 51-54). -/
def formatExt : OutputFormat → String
  | .json => ".mdm"
  | .txt => ".txt"

/-- The output file name `echo_result` synthesizes for enrich when no
`-o` was given (decorator.py lines 47-54): `splitext` on the input file's
relative name, then `basename` of the root, then the format's
extension. -/
def synthOutputName (inputName : String) (fmt : OutputFormat) : String :=
  basenameStr (splitextRootStr inputName) ++ formatExt fmt

/-- What one invocation of `echo_result`'s wrapper emits after the wrapped
call returned a result: the strings echoed to standard output and the
strings written to named files (click.echo appends one `"\n"` to each
emission, which is included here). -/
structure Emission where
  stdout : List String
  files : List (String × String)
deriving Repr, DecidableEq

/-- `echo_result`'s wrapper body after `result = function(...)` returned
(decorator.py lines 33-75).  `none` models the uncaught Python errors of
that body: the `KeyError` when an enrich result has no
`message_data_model` key, and the `AttributeError` when enrich has
neither an output file nor an input file to synthesize a name from. -/
def echo_result (cmdName : String) (fmts : Formatters) (params : Params)
    (result : Value) : Option Emission :=
  let formatter := resolveFormatter fmts params.output_format cmdName
  if cmdName = "enrich" then
    match
      (match params.output_file with
       | some f => some f
       | none =>
           (params.input_file).map
             (fun inputName => synthOutputName inputName params.output_format))
    with
    | none => none
    | some fileName =>
        let detailsOut :=
          stripNl (fmts.txt "enrich_details" result (params.verbose.getD false))
        match result.lookup "message_data_model" with
        | none => none
        | some narrowed =>
            let output :=
              stripNl (formatter narrowed (params.verbose.getD false))
            some { stdout := [detailsOut ++ "\n",
                              "Output saved to " ++ fileName ++ "\n"],
                   files := [(fileName, output ++ "\n")] }
  else
    let output := stripNl (formatter result (params.verbose.getD false))
    match params.output_file with
    | some fileName =>
        some { stdout := ["Output saved to " ++ fileName ++ "\n"],
               files := [(fileName, output ++ "\n")] }
    | none =>
        some { stdout := [output ++ "\n"], files := [] }

/-- Modelled from the spec: the outcome of the wrapped API call as the
Error Classifier sees it — the classified failure variants are
rate-limited (`RateLimitError`, detail in `args[0]["detail"]`),
request-failure with structured body (`RequestFailure`, detail in
`args[1]["detail"]`) and generic transport error (`RequestException`,
stringified); the exception classes live in `sublime/exceptions.py`,
which is not under `src/`, and are modelled as disjoint variants per the
spec's failure taxonomy. -/
inductive ApiResult where
  | ok (v : Value)
  | rateLimit (detail : String)
  | requestFailure (detail : String)
  | requestException (stringified : String)

/-- Observable outcome of one command invocation below `pass_api_client`:
logger error lines, standard output, file writes, and the exit code
passed to `context.exit` (`none` when the command ran to completion). -/
structure RunState where
  logs : List String
  stdout : List String
  files : List (String × String)
  exitCode : Option Int
deriving Repr, DecidableEq

/-- The composition `echo_result (handle_exceptions function)` that every
real subcommand wraps its body in (decorator.py lines 80-112 inside
lines 31-77): on a classified failure `handle_exceptions` logs exactly
one `"API error: ..."` line and calls `context.exit(-1)`, which aborts
`echo_result`'s wrapper before any formatting or echo; on success
`echo_result` formats and emits. -/
def runCommand (cmdName : String) (fmts : Formatters) (params : Params)
    (apiOutcome : ApiResult) : Option RunState :=
  match apiOutcome with
  | .ok v =>
      (echo_result cmdName fmts params v).map
        (fun e => { logs := [], stdout := e.stdout, files := e.files,
                    exitCode := none })
  | .rateLimit detail =>
      some { logs := ["API error: " ++ detail], stdout := [], files := [],
             exitCode := some (-1) }
  | .requestFailure detail =>
      some { logs := ["API error: " ++ detail], stdout := [], files := [],
             exitCode := some (-1) }
  | .requestException stringified =>
      some { logs := ["API error: " ++ stringified], stdout := [],
             files := [], exitCode := some (-1) }

/-- Python truthiness of an optional string parameter: `None` and the
empty string are falsy. -/
def pyTruthyOptStr : Option String → Bool
  | none => false
  | some s => !(s = "")

/-- The `MissingDetectionInput` message (decorator.py lines 283-285). -/
def missingDetectionMsg : String :=
  "You must specify either a .pql detections file (-D) or a raw detection (-d)"

/-- Outcome of the analyze wrapper's pre-flight check: `proceed` is the
only constructor under which the wrapped command body — and with it the
remote API operation — is invoked; `usageError` models a raised
`click.ClickException` (click prints the message and exits with the
exception's exit code, 1). -/
inductive AnalyzePreflight where
  | proceed (detections_file : Option String) (detection_str : Option String)
  | usageError (message : String) (exitCode : Int)
deriving Repr, DecidableEq

/-- The analyze wrapper body (decorator.py lines 227-235): when neither
`detections_file` nor `detection_str` is truthy (an open file object is
always truthy, so the file is truthy exactly when present; the string is
falsy when absent or empty), try to open `detections.pql`; on
`FileNotFoundError` raise `MissingDetectionInput`, otherwise install the
opened default file and proceed. -/
def analyze_wrapper (detections_file : Option String)
    (detection_str : Option String) (fsExists : String → Bool) :
    AnalyzePreflight :=
  if !detections_file.isSome && !(pyTruthyOptStr detection_str) then
    if fsExists "detections.pql" then
      .proceed (some "detections.pql") detection_str
    else
      .usageError missingDetectionMsg 1
  else
    .proceed detections_file detection_str

/-- Modelled from the spec: the outcome of the `not_implemented` probe
call on the API client; the classified failure variants are the spec's
three disjoint kinds (the exception classes live in
`sublime/exceptions.py` and the `requests` library, not under `src/`).
A `requests.RequestException` is in any case not an instance of the
repository's own `RequestFailure` class. -/
inductive ProbeOutcome where
  | ok
  | rateLimit (detail : String)
  | requestFailure (detail : String)
  | requestException (stringified : String)
deriving Repr, DecidableEq

/-- The `SubcommandNotImplemented` message (decorator.py line 298);
`{!r}` renders the name in single quotes. -/
def subcommandNotImplementedMsg (name : String) : String :=
  "'" ++ name ++ "' subcommand is not implemented yet."

/-- How one not-implemented placeholder invocation ends below
`pass_api_client`: the probe succeeded (`done`), a
`SubcommandNotImplemented` usage error was raised and shown by click
(`usageError`, exit code 1), or the probe's exception was not caught by
the `except RequestFailure` clause and propagates as an unhandled Python
error (`unhandled`). -/
inductive NotImplementedOutcome where
  | done
  | usageError (message : String) (exitCode : Int)
  | unhandled (failure : ProbeOutcome)
deriving Repr, DecidableEq

/-- The `not_implemented_command` wrapper body (decorator.py lines
308-313): call `api_client.not_implemented(command_name)` and convert
exactly a `RequestFailure` into `SubcommandNotImplemented`. -/
def not_implemented_wrapper (commandName : String) (probe : ProbeOutcome) :
    NotImplementedOutcome :=
  match probe with
  | .ok => .done
  | .requestFailure _ =>
      .usageError (subcommandNotImplementedMsg commandName) 1
  | .rateLimit d => .unhandled (.rateLimit d)
  | .requestException s => .unhandled (.requestException s)

/-- A full not-implemented placeholder invocation: `pass_api_client`
resolves the key first (exiting on the missing-key path), then the
client facade is constructed bound to `clientKey` and the probe is
invoked with the command's name. -/
inductive NotImplRun where
  | keyError (stdout : List String) (code : Int)
  | ran (clientKey : String) (probedName : String)
        (outcome : NotImplementedOutcome)
deriving Repr, DecidableEq

/-- `not_implemented_command` composed with `pass_api_client`
(decorator.py lines 302-315): `probe` maps the probed command name to the
API call's outcome. -/
def not_implemented_command (flag : Option String) (config : ConfigT)
    (progName commandName : String) (probe : String → ProbeOutcome) :
    NotImplRun :=
  match pass_api_client flag config progName with
  | .exit out code => .keyError out code
  | .client key =>
      .ran key commandName
        (not_implemented_wrapper commandName (probe commandName))

/-- The parameter surface the `enrich_command` decorator defines
(decorator.py lines 156-177): `-k`, required `-i`, optional `-o`, `-f`
(default json).  No verbosity option exists, so `verbose` is absent. -/
def enrichParams (api_key : Option String) (input_file : String)
    (output_file : Option String) (output_format : OutputFormat) : Params :=
  { api_key := api_key, input_file := some input_file,
    output_file := output_file, output_format := output_format,
    verbose := none, detections_file := none, detection_str := none,
    query := none }

/-- The parameter surface the `analyze_command` decorator defines
(decorator.py lines 192-221): `-k`, required `-i`, `-D`, `-d`, `-o`,
`-f` (default txt).  No verbosity option exists. -/
def analyzeParams (api_key : Option String) (input_file : String)
    (detections_file : Option String) (detection_str : Option String)
    (output_file : Option String) (output_format : OutputFormat) : Params :=
  { api_key := api_key, input_file := some input_file,
    output_file := output_file, output_format := output_format,
    verbose := none, detections_file := detections_file,
    detection_str := detection_str, query := none }

/-- The parameter surface the `query_command` decorator defines
(decorator.py lines 243-266): `-k`, required `-i`, required `-q`, `-o`,
`-f` (default txt).  No verbosity option exists. -/
def queryParams (api_key : Option String) (input_file : String)
    (query : String) (output_file : Option String)
    (output_format : OutputFormat) : Params :=
  { api_key := api_key, input_file := some input_file,
    output_file := output_file, output_format := output_format,
    verbose := none, detections_file := none, detection_str := none,
    query := some query }

/-- `needle` occurs as a contiguous substring of `hay`. -/
def strHasSub (needle hay : String) : Bool :=
  (List.range (hay.data.length + 1)).any
    (fun i => needle.data.isPrefixOf (hay.data.drop i))

/-- The output naming rule as the spec words it, for comparison with the
code's `synthOutputName`: the input file's base name with its extension
removed (`<input_basename_without_extension>`), plus the format's
extension. -/
def specOutputName (inputName : String) (fmt : OutputFormat) : String :=
  String.mk (splitextBase (basenameChars inputName.data)).1 ++ formatExt fmt

/-- Whether a pre-flight outcome goes on to invoke the wrapped command
body — and with it the remote API operation. -/
def AnalyzePreflight.invokesApi : AnalyzePreflight → Bool
  | .proceed _ _ => true
  | .usageError _ _ => false

/-- Concrete result payload used to instantiate universally quantified
theorems: an enrich-style composite with a `message_data_model` field and
an auxiliary field. -/
def sampleResult : Value :=
  .obj [("message_data_model", .str "mdm-payload"), ("state", .str "ok")]

/-- Concrete formatter registry used to instantiate universally
quantified theorems. -/
def sampleFormatters : Formatters where
  json := fun v verbose =>
    match v, verbose with
    | .str s, _ => "json(" ++ s ++ ")"
    | .obj _, _ => "json(obj)"
  txt := fun cmd v verbose =>
    match v, verbose with
    | .str s, _ => "txt-" ++ cmd ++ "(" ++ s ++ ")"
    | .obj _, _ => "txt-" ++ cmd ++ "(obj)"

/-- A formatter registry whose rendering functions return text with a
LEADING newline, exhibiting what the emission step does to it. -/
def leadingNlFormatters : Formatters where
  json := fun _ _ => "\nA"
  txt := fun _ _ _ => "\nA"

section Theorems

/-- If `l` is a Boolean prefix of `x`, it is one of `x ++ y`. -/
theorem isPrefixOf_append_of (l x y : List Char)
    (h : l.isPrefixOf x = true) : l.isPrefixOf (x ++ y) = true := by
  simp at h ⊢
  obtain ⟨u, rfl⟩ := h
  exact ⟨u ++ y, (List.append_assoc l u y).symm⟩

/-- A substring of `hay` is a substring of `hay ++ tail`. -/
theorem strHasSub_append_right (needle hay tail : String)
    (h : strHasSub needle hay = true) :
    strHasSub needle (hay ++ tail) = true := by
  unfold strHasSub at h ⊢
  rw [List.any_eq_true] at h ⊢
  obtain ⟨i, hi, hp⟩ := h
  rw [List.mem_range] at hi
  refine ⟨i, ?_, ?_⟩
  · rw [List.mem_range, String.data_append, List.length_append]
    omega
  · rw [String.data_append, List.drop_append_eq_append_drop]
    exact isPrefixOf_append_of _ _ _ hp

/-- A substring of `tail` is a substring of `hay ++ tail`. -/
theorem strHasSub_append_left (needle hay tail : String)
    (h : strHasSub needle tail = true) :
    strHasSub needle (hay ++ tail) = true := by
  unfold strHasSub at h ⊢
  rw [List.any_eq_true] at h ⊢
  obtain ⟨i, hi, hp⟩ := h
  rw [List.mem_range] at hi
  refine ⟨hay.data.length + i, ?_, ?_⟩
  · rw [List.mem_range, String.data_append, List.length_append]
    omega
  · rw [String.data_append, List.drop_append_eq_append_drop]
    have h1 : hay.data.drop (hay.data.length + i) = [] :=
      List.drop_eq_nil_of_le (by omega)
    have h2 : hay.data.length + i - hay.data.length = i := by omega
    rw [h1, h2, List.nil_append]
    exact hp

set_option maxRecDepth 40000 in
/-- The missing-key help message names the `-k` (api-key) flag, for
every program name. -/
theorem apiKeyMsg_names_flag (prog : String) :
    strHasSub "-k/--api-key" (apiKeyNotFoundMsg prog) = true := by
  unfold apiKeyNotFoundMsg
  apply strHasSub_append_right
  apply strHasSub_append_right
  decide

set_option maxRecDepth 40000 in
/-- The missing-key help message names the `SUBLIME_API_KEY` environment
variable, for every program name. -/
theorem apiKeyMsg_names_envvar (prog : String) :
    strHasSub "SUBLIME_API_KEY" (apiKeyNotFoundMsg prog) = true := by
  unfold apiKeyNotFoundMsg
  apply strHasSub_append_right
  apply strHasSub_append_right
  decide

set_option maxRecDepth 40000 in
/-- The missing-key help message names the `setup` configuration command,
for every program name. -/
theorem apiKeyMsg_names_setup (prog : String) :
    strHasSub " setup' to save it to the configuration file."
      (apiKeyNotFoundMsg prog) = true := by
  unfold apiKeyNotFoundMsg
  apply strHasSub_append_left
  decide

/-- C1: API key resolution picks the highest-precedence source that was
supplied: with an explicit `-k` flag value the client is built with the
flag's key (whatever the persisted configuration holds), and with no
flag but a non-empty persisted key the client is built with the
persisted key. -/
theorem apiKey_resolution_precedence (k prog : String) (cfg : ConfigT)
    (hcfg : cfg.api_key ≠ "") :
    pass_api_client (some k) cfg prog = KeyResolution.client k ∧
    pass_api_client none cfg prog = KeyResolution.client cfg.api_key := by
  refine ⟨rfl, ?_⟩
  unfold pass_api_client
  simp [hcfg]

/-- Witness for C1 at flag key `"flagkey"`, persisted key
`"persisted"`. -/
theorem apiKey_resolution_precedence_witness :
    (ConfigT.mk "persisted").api_key ≠ "" ∧
    (pass_api_client (some "flagkey") ⟨"persisted"⟩ "sublime" =
        KeyResolution.client "flagkey" ∧
      pass_api_client none ⟨"persisted"⟩ "sublime" =
        KeyResolution.client "persisted") :=
  ⟨by decide,
    apiKey_resolution_precedence "flagkey" "sublime" ⟨"persisted"⟩
      (by decide)⟩

/-- C2 counterexample: invoked with the flag supplied as the empty string
and an empty persisted key, neither source yields a non-empty key, yet no
help message is emitted and no exit happens — the client facade IS
constructed, bound to the empty API key. -/
theorem clientConstructedEmptyKey_counterexample :
    pass_api_client (some "") ⟨""⟩ "sublime" = KeyResolution.client "" :=
  rfl

/-- C2 amended: provided the `-k` flag is not supplied as the empty
string, every constructed client is bound to a non-empty key; and when
the flag is absent and the persisted key is empty, the help message
naming the flag, the environment variable and the setup configuration
command is echoed and the process exits with the non-zero status −1
before any client is constructed. -/
theorem clientKeyNonempty_amended (flag : Option String) (cfg : ConfigT)
    (prog key : String) (hflag : flag ≠ some "") :
    (pass_api_client flag cfg prog = KeyResolution.client key →
      key ≠ "") ∧
    (flag = none → cfg.api_key = "" →
      pass_api_client flag cfg prog =
        KeyResolution.exit [apiKeyNotFoundMsg prog ++ "\n"] (-1) ∧
      strHasSub "-k/--api-key" (apiKeyNotFoundMsg prog) = true ∧
      strHasSub "SUBLIME_API_KEY" (apiKeyNotFoundMsg prog) = true ∧
      strHasSub " setup' to save it to the configuration file."
        (apiKeyNotFoundMsg prog) = true ∧
      (-1 : Int) ≠ 0) := by
  constructor
  · intro hc
    match flag, hflag, hc with
    | some k, hflag, hc =>
        unfold pass_api_client at hc
        cases hc
        intro hk
        exact hflag (by rw [hk])
    | none, _, hc =>
        unfold pass_api_client at hc
        by_cases hk : cfg.api_key = ""
        · simp [hk] at hc
        · simp [hk] at hc
          rw [← hc]
          exact hk
  · intro h1 h2
    subst h1
    refine ⟨?_, apiKeyMsg_names_flag prog, apiKeyMsg_names_envvar prog,
      apiKeyMsg_names_setup prog, by decide⟩
    unfold pass_api_client
    simp [h2]

/-- Witness for the amended C2 at the missing-key invocation (no flag,
empty persisted key, program name `sublime`). -/
theorem clientKeyNonempty_amended_witness :
    (pass_api_client none ⟨""⟩ "sublime" = KeyResolution.client "x" →
      ("x" : String) ≠ "") ∧
    ((none : Option String) = none → ConfigT.api_key ⟨""⟩ = "" →
      pass_api_client none ⟨""⟩ "sublime" =
        KeyResolution.exit [apiKeyNotFoundMsg "sublime" ++ "\n"] (-1) ∧
      strHasSub "-k/--api-key" (apiKeyNotFoundMsg "sublime") = true ∧
      strHasSub "SUBLIME_API_KEY" (apiKeyNotFoundMsg "sublime") = true ∧
      strHasSub " setup' to save it to the configuration file."
        (apiKeyNotFoundMsg "sublime") = true ∧
      (-1 : Int) ≠ 0) :=
  clientKeyNonempty_amended none ⟨""⟩ "sublime" "x" (by decide)

/-- C3: every classified API failure variant produces exactly one
`"API error: <detail>"` log line (detail from the failure payload for the
rate-limit and request-failure variants, the stringified error for the
transport variant), a non-zero exit, and nothing on the output
destination — no formatting or echo occurs. -/
theorem classifiedFailure_single_log_no_output (cmdName : String)
    (fmts : Formatters) (params : Params) (d e s : String) :
    runCommand cmdName fmts params (.rateLimit d) =
      some { logs := ["API error: " ++ d], stdout := [], files := [],
             exitCode := some (-1) } ∧
    runCommand cmdName fmts params (.requestFailure e) =
      some { logs := ["API error: " ++ e], stdout := [], files := [],
             exitCode := some (-1) } ∧
    runCommand cmdName fmts params (.requestException s) =
      some { logs := ["API error: " ++ s], stdout := [], files := [],
             exitCode := some (-1) } ∧
    (-1 : Int) ≠ 0 :=
  ⟨rfl, rfl, rfl, by decide⟩

/-- Every character of the code's `takeWhile` result satisfies the
predicate; appending below it is transparent. -/
theorem takeWhile_append_of_all (q : Char → Bool) (l₁ l₂ : List Char)
    (h : ∀ a ∈ l₁, q a = true) :
    (l₁ ++ l₂).takeWhile q = l₁ ++ l₂.takeWhile q := by
  induction l₁ with
  | nil => simp
  | cons a t ih =>
      have ha : q a = true := h a (List.mem_cons_self a t)
      simp [List.takeWhile_cons, ha]
      exact ih (fun b hb => h b (List.mem_cons_of_mem a hb))

/-- `dropWhile` either drops everything or stops at an element failing
the predicate. -/
theorem dropWhile_head_not (q : Char → Bool) (l : List Char) :
    l.dropWhile q = [] ∨
    ∃ c t, l.dropWhile q = c :: t ∧ q c = false := by
  induction l with
  | nil => left; rfl
  | cons a t ih =>
      by_cases h : q a = true
      · rw [List.dropWhile_cons_of_pos h]
        exact ih
      · right
        exact ⟨a, t, List.dropWhile_cons_of_neg h, by simpa using h⟩

/-- Elements surviving `dropWhile` come from the original list. -/
theorem mem_dropWhile_sub (q : Char → Bool) (l : List Char) :
    ∀ a ∈ l.dropWhile q, a ∈ l := by
  intro a ha
  induction l with
  | nil => simp at ha
  | cons b t ih =>
      by_cases h : q b = true
      · rw [List.dropWhile_cons_of_pos h] at ha
        exact List.mem_cons_of_mem b (ih ha)
      · rw [List.dropWhile_cons_of_neg h] at ha
        exact ha

/-- A base name contains no path separator. -/
theorem mem_basenameChars_ne_slash (p : List Char) :
    ∀ c ∈ basenameChars p, c ≠ '/' := by
  intro c hc
  unfold basenameChars at hc
  rw [List.mem_reverse] at hc
  have := List.mem_takeWhile_imp hc
  simpa using this

/-- The directory part is empty or ends in the separator. -/
theorem dirChars_shape (p : List Char) :
    dirChars p = [] ∨ ∃ d, dirChars p = d ++ ['/'] := by
  unfold dirChars
  rcases dropWhile_head_not (fun c => decide (c ≠ '/')) p.reverse with
    h | ⟨c, t, heq, hq⟩
  · left
    rw [h]
    rfl
  · right
    refine ⟨t.reverse, ?_⟩
    rw [heq, List.reverse_cons]
    have hc : c = '/' := by simpa using hq
    rw [hc]

/-- A path is its directory part followed by its base name. -/
theorem dir_append_basename (p : List Char) :
    dirChars p ++ basenameChars p = p := by
  unfold dirChars basenameChars
  rw [← List.reverse_append, List.takeWhile_append_dropWhile,
    List.reverse_reverse]

/-- The root `splitext` keeps is made of characters of the input. -/
theorem splitextBase_root_sub (b : List Char) :
    ∀ c ∈ (splitextBase b).1, c ∈ b := by
  intro c hc
  unfold splitextBase at hc
  rcases hdw : b.reverse.dropWhile (fun c => decide (c ≠ '.')) with
    _ | ⟨x, t⟩
  · rw [hdw] at hc
    simpa using hc
  · rw [hdw] at hc
    by_cases hany : t.any (fun c => decide (c ≠ '.')) = true
    · simp only [hany, if_true] at hc
      have h1 : c ∈ t := List.mem_reverse.mp hc
      have h2 : c ∈ x :: t := List.mem_cons_of_mem x h1
      rw [← hdw] at h2
      have h3 := mem_dropWhile_sub _ _ c h2
      exact List.mem_reverse.mp h3
    · simp only [hany, if_false] at hc
      simpa using hc

/-- Taking the base name of a path whose final component is slash-free
returns that final component. -/
theorem basenameChars_append (d r : List Char)
    (hr : ∀ c ∈ r, c ≠ '/')
    (hd : d = [] ∨ ∃ d', d = d' ++ ['/']) :
    basenameChars (d ++ r) = r := by
  unfold basenameChars
  rw [List.reverse_append]
  rw [takeWhile_append_of_all _ _ _
    (by intro a ha; simpa using hr a (List.mem_reverse.mp ha))]
  rcases hd with rfl | ⟨d', rfl⟩
  · simp
  · rw [List.reverse_append]
    simp [List.takeWhile_cons]

/-- Splitting the extension off the whole path and then taking the base
name (the code's order) equals taking the base name and then splitting
its extension (the spec's wording). -/
theorem basename_splitext_comm (p : List Char) :
    basenameChars (splitextChars p).1 =
      (splitextBase (basenameChars p)).1 := by
  show basenameChars (dirChars p ++ (splitextBase (basenameChars p)).1) = _
  apply basenameChars_append
  · intro c hc
    exact mem_basenameChars_ne_slash p c (splitextBase_root_sub _ c hc)
  · exact dirChars_shape p

/-- C4: with no explicit output file, enrich synthesizes the output file
name as the input's base name without its extension plus `.mdm` for json
and `.txt` for txt; `report.eml` yields `report.mdm` and `report.txt`;
and the pipeline's file write uses exactly that name. -/
theorem enrich_output_file_naming (s : String) (fmts : Formatters)
    (res mdm : Value) (fmt : OutputFormat)
    (hm : res.lookup "message_data_model" = some mdm) :
    synthOutputName s fmt = specOutputName s fmt ∧
    synthOutputName "report.eml" OutputFormat.json = "report.mdm" ∧
    synthOutputName "report.eml" OutputFormat.txt = "report.txt" ∧
    (echo_result "enrich" fmts (enrichParams none s none fmt) res).map
        (fun e => e.files.map Prod.fst) =
      some [synthOutputName s fmt] := by
  refine ⟨?_, by decide, by decide, ?_⟩
  · unfold synthOutputName specOutputName basenameStr splitextRootStr
    rw [basename_splitext_comm]
  · unfold echo_result enrichParams
    simp [hm]

/-- Witness for C4 at input `dir/report.eml`, json format, and the sample
composite result. -/
theorem enrich_output_file_naming_witness :
    sampleResult.lookup "message_data_model" =
      some (Value.str "mdm-payload") ∧
    (synthOutputName "dir/report.eml" OutputFormat.json =
        specOutputName "dir/report.eml" OutputFormat.json ∧
      synthOutputName "report.eml" OutputFormat.json = "report.mdm" ∧
      synthOutputName "report.eml" OutputFormat.txt = "report.txt" ∧
      (echo_result "enrich" sampleFormatters
          (enrichParams none "dir/report.eml" none OutputFormat.json)
          sampleResult).map (fun e => e.files.map Prod.fst) =
        some [synthOutputName "dir/report.eml" OutputFormat.json]) :=
  ⟨rfl, enrich_output_file_naming "dir/report.eml" sampleFormatters
    sampleResult (Value.str "mdm-payload") OutputFormat.json rfl⟩

/-- C5: on a successful enrich the fixed human-readable detail view (the
txt formatter under command key `enrich_details`) is rendered from the
result and echoed to standard output even when an explicit output file
was supplied; the detail output and the file output are both produced in
the same invocation. -/
theorem enrich_details_always_on_stdout (fmts : Formatters)
    (params : Params) (result mdm : Value) (f : String)
    (hf : params.output_file = some f)
    (hm : result.lookup "message_data_model" = some mdm) :
    echo_result "enrich" fmts params result =
      some { stdout :=
               [stripNl (fmts.txt "enrich_details" result
                  (params.verbose.getD false)) ++ "\n",
                "Output saved to " ++ f ++ "\n"],
             files := [(f,
               stripNl (resolveFormatter fmts params.output_format "enrich"
                 mdm (params.verbose.getD false)) ++ "\n")] } := by
  unfold echo_result
  simp [hf, hm]

/-- Witness for C5 with an explicit output file `out.mdm`. -/
theorem enrich_details_always_on_stdout_witness :
    (enrichParams none "report.eml" (some "out.mdm")
        OutputFormat.json).output_file = some "out.mdm" ∧
    sampleResult.lookup "message_data_model" =
      some (Value.str "mdm-payload") ∧
    echo_result "enrich" sampleFormatters
        (enrichParams none "report.eml" (some "out.mdm") OutputFormat.json)
        sampleResult =
      some { stdout :=
               [stripNl (sampleFormatters.txt "enrich_details" sampleResult
                  ((enrichParams none "report.eml" (some "out.mdm")
                    OutputFormat.json).verbose.getD false)) ++ "\n",
                "Output saved to " ++ "out.mdm" ++ "\n"],
             files := [("out.mdm",
               stripNl (resolveFormatter sampleFormatters
                 (enrichParams none "report.eml" (some "out.mdm")
                   OutputFormat.json).output_format "enrich"
                 (Value.str "mdm-payload")
                 ((enrichParams none "report.eml" (some "out.mdm")
                   OutputFormat.json).verbose.getD false)) ++ "\n")] } :=
  ⟨rfl, rfl, enrich_details_always_on_stdout sampleFormatters
    (enrichParams none "report.eml" (some "out.mdm") OutputFormat.json)
    sampleResult (Value.str "mdm-payload") "out.mdm" rfl rfl⟩

/-- C6: the enrich detail view is rendered from the full composite
result; only afterwards is the result narrowed to its
`message_data_model` field, and the generic formatting step receives
exactly the narrowed value. -/
theorem enrich_narrows_after_details (fmts : Formatters) (params : Params)
    (result mdm : Value) (inp : String)
    (hf : params.output_file = none)
    (hi : params.input_file = some inp)
    (hm : result.lookup "message_data_model" = some mdm) :
    echo_result "enrich" fmts params result =
      some { stdout :=
               [stripNl (fmts.txt "enrich_details" result
                  (params.verbose.getD false)) ++ "\n",
                "Output saved to " ++
                  synthOutputName inp params.output_format ++ "\n"],
             files := [(synthOutputName inp params.output_format,
               stripNl (resolveFormatter fmts params.output_format "enrich"
                 mdm (params.verbose.getD false)) ++ "\n")] } := by
  unfold echo_result
  simp [hf, hi, hm]

/-- Witness for C6 with no output file, input `report.eml`. -/
theorem enrich_narrows_after_details_witness :
    (enrichParams none "report.eml" none
        OutputFormat.json).output_file = none ∧
    (enrichParams none "report.eml" none
        OutputFormat.json).input_file = some "report.eml" ∧
    sampleResult.lookup "message_data_model" =
      some (Value.str "mdm-payload") ∧
    echo_result "enrich" sampleFormatters
        (enrichParams none "report.eml" none OutputFormat.json)
        sampleResult =
      some { stdout :=
               [stripNl (sampleFormatters.txt "enrich_details" sampleResult
                  ((enrichParams none "report.eml" none
                    OutputFormat.json).verbose.getD false)) ++ "\n",
                "Output saved to " ++
                  synthOutputName "report.eml"
                    (enrichParams none "report.eml" none
                      OutputFormat.json).output_format ++ "\n"],
             files := [(synthOutputName "report.eml"
                 (enrichParams none "report.eml" none
                   OutputFormat.json).output_format,
               stripNl (resolveFormatter sampleFormatters
                 (enrichParams none "report.eml" none
                   OutputFormat.json).output_format "enrich"
                 (Value.str "mdm-payload")
                 ((enrichParams none "report.eml" none
                   OutputFormat.json).verbose.getD false)) ++ "\n")] } :=
  ⟨rfl, rfl, rfl, enrich_narrows_after_details sampleFormatters
    (enrichParams none "report.eml" none OutputFormat.json)
    sampleResult (Value.str "mdm-payload") "report.eml" rfl rfl rfl⟩

/-- C7 counterexample: a rendering function returning `"\nA"` has its
LEADING newline removed as well — the emitted text is `"A\n"`, not the
claim's `"\nA"` with one newline re-added.  Leading characters of the
rendered text are not preserved. -/
theorem emission_keeps_leading_counterexample :
    echo_result "query" leadingNlFormatters
        (queryParams none "in.mdm" "q" none OutputFormat.json)
        (Value.str "r") =
      some { stdout := ["A" ++ "\n"], files := [] } ∧
    "A" ++ "\n" ≠ "\nA" ++ "\n" :=
  ⟨rfl, by decide⟩

/-- C7 amended: the text emitted for a rendered text is the rendered text
with newline characters stripped from BOTH ends — trailing and leading —
and the echo then re-adds exactly one newline (`stripNl` is Python's
`strip("\n")`). -/
theorem emission_strips_both_ends_amended (fmts : Formatters)
    (params : Params) (result : Value) (cmdName f : String)
    (hc : cmdName ≠ "enrich") :
    (params.output_file = none →
      echo_result cmdName fmts params result =
        some { stdout := [stripNl (resolveFormatter fmts
                 params.output_format cmdName result
                 (params.verbose.getD false)) ++ "\n"],
               files := [] }) ∧
    (params.output_file = some f →
      echo_result cmdName fmts params result =
        some { stdout := ["Output saved to " ++ f ++ "\n"],
               files := [(f, stripNl (resolveFormatter fmts
                 params.output_format cmdName result
                 (params.verbose.getD false)) ++ "\n")] }) ∧
    stripNl "\n\nA\n" = "A" := by
  refine ⟨?_, ?_, by decide⟩
  · intro hf
    unfold echo_result
    simp [hc, hf]
  · intro hf
    unfold echo_result
    simp [hc, hf]

/-- Witness for the amended C7 on a query invocation writing to standard
output. -/
theorem emission_strips_both_ends_amended_witness :
    ("query" : String) ≠ "enrich" ∧
    (((queryParams none "in.mdm" "q" none
          OutputFormat.json).output_file = none →
      echo_result "query" sampleFormatters
          (queryParams none "in.mdm" "q" none OutputFormat.json)
          (Value.str "r") =
        some { stdout := [stripNl (resolveFormatter sampleFormatters
                 (queryParams none "in.mdm" "q" none
                   OutputFormat.json).output_format "query" (Value.str "r")
                 ((queryParams none "in.mdm" "q" none
                   OutputFormat.json).verbose.getD false)) ++ "\n"],
               files := [] }) ∧
    ((queryParams none "in.mdm" "q" none
          OutputFormat.json).output_file = some "o.json" →
      echo_result "query" sampleFormatters
          (queryParams none "in.mdm" "q" none OutputFormat.json)
          (Value.str "r") =
        some { stdout := ["Output saved to " ++ "o.json" ++ "\n"],
               files := [("o.json", stripNl (resolveFormatter
                 sampleFormatters
                 (queryParams none "in.mdm" "q" none
                   OutputFormat.json).output_format "query" (Value.str "r")
                 ((queryParams none "in.mdm" "q" none
                   OutputFormat.json).verbose.getD false)) ++ "\n")] }) ∧
    stripNl "\n\nA\n" = "A") :=
  ⟨by decide, emission_strips_both_ends_amended sampleFormatters
    (queryParams none "in.mdm" "q" none OutputFormat.json)
    (Value.str "r") "query" "o.json" (by decide)⟩

/-- C8: when analyze is invoked with neither a detections file nor a raw
detection, the default `detections.pql` is attempted: if it exists it
becomes the detections input; if not, the command fails with a usage
error naming both `-D` and `-d`, exits 1 (non-zero), and the wrapped
command body — the remote API operation — is never invoked. -/
theorem analyze_default_detections (df ds : Option String)
    (fs : String → Bool) (hdf : df = none) (hds : ds = none) :
    (fs "detections.pql" = true →
      analyze_wrapper df ds fs =
        AnalyzePreflight.proceed (some "detections.pql") ds) ∧
    (fs "detections.pql" = false →
      analyze_wrapper df ds fs =
        AnalyzePreflight.usageError missingDetectionMsg 1 ∧
      (analyze_wrapper df ds fs).invokesApi = false ∧
      strHasSub "-D" missingDetectionMsg = true ∧
      strHasSub "-d" missingDetectionMsg = true ∧
      (1 : Int) ≠ 0) := by
  subst hdf hds
  constructor
  · intro hfs
    unfold analyze_wrapper
    simp [pyTruthyOptStr, hfs]
  · intro hfs
    have h1 : analyze_wrapper none none fs =
        AnalyzePreflight.usageError missingDetectionMsg 1 := by
      unfold analyze_wrapper
      simp [pyTruthyOptStr, hfs]
    refine ⟨h1, by rw [h1]; rfl, by decide, by decide, by decide⟩

/-- Witness for C8 with an absent `detections.pql`. -/
theorem analyze_default_detections_witness :
    ((none : Option String) = none) ∧ ((none : Option String) = none) ∧
    (((fun _ => false : String → Bool) "detections.pql" = true →
      analyze_wrapper none none (fun _ => false) =
        AnalyzePreflight.proceed (some "detections.pql") none) ∧
    ((fun _ => false : String → Bool) "detections.pql" = false →
      analyze_wrapper none none (fun _ => false) =
        AnalyzePreflight.usageError missingDetectionMsg 1 ∧
      (analyze_wrapper none none (fun _ => false)).invokesApi = false ∧
      strHasSub "-D" missingDetectionMsg = true ∧
      strHasSub "-d" missingDetectionMsg = true ∧
      (1 : Int) ≠ 0)) :=
  ⟨rfl, rfl, analyze_default_detections none none (fun _ => false) rfl rfl⟩

/-- C9 counterexample: a placeholder command whose probe fails with a
generic transport error (`requests.RequestException`, which is not an
instance of the repository's `RequestFailure`) does not produce the
"subcommand is not implemented yet." usage error: the exception escapes
the `except RequestFailure` clause and propagates unhandled. -/
theorem notImplemented_transport_counterexample :
    not_implemented_command (some "k") ⟨""⟩ "sublime" "richers"
        (fun _ => ProbeOutcome.requestException "connection error") =
      NotImplRun.ran "k" "richers"
        (NotImplementedOutcome.unhandled
          (ProbeOutcome.requestException "connection error")) ∧
    NotImplementedOutcome.unhandled
        (ProbeOutcome.requestException "connection error") ≠
      NotImplementedOutcome.usageError
        (subcommandNotImplementedMsg "richers") 1 :=
  ⟨rfl, by decide⟩

/-- C9 amended: every not-implemented placeholder resolves the API key,
constructs the client bound to the resolved key, and invokes the probe
with the command's name; when the probe fails with the request-failure
variant, the `'<name>' subcommand is not implemented yet.` usage error is
raised instead of a generic API error (other failure variants propagate
unhandled). -/
theorem notImplemented_probe_amended (flag : Option String) (cfg : ConfigT)
    (prog name key d : String) (probe : String → ProbeOutcome)
    (hk : pass_api_client flag cfg prog = KeyResolution.client key) :
    not_implemented_command flag cfg prog name probe =
      NotImplRun.ran key name
        (not_implemented_wrapper name (probe name)) ∧
    (probe name = ProbeOutcome.requestFailure d →
      not_implemented_command flag cfg prog name probe =
        NotImplRun.ran key name
          (NotImplementedOutcome.usageError
            ("'" ++ name ++ "' subcommand is not implemented yet.") 1)) := by
  constructor
  · unfold not_implemented_command
    rw [hk]
  · intro hp
    unfold not_implemented_command
    rw [hk, hp]
    rfl

/-- Witness for the amended C9: probe of command `richers` failing with a
request failure yields the usage error. -/
theorem notImplemented_probe_amended_witness :
    pass_api_client (some "k") ⟨""⟩ "sublime" =
      KeyResolution.client "k" ∧
    (not_implemented_command (some "k") ⟨""⟩ "sublime" "richers"
        (fun _ => ProbeOutcome.requestFailure "404") =
      NotImplRun.ran "k" "richers"
        (not_implemented_wrapper "richers"
          ((fun _ => ProbeOutcome.requestFailure "404") "richers")) ∧
    ((fun _ => ProbeOutcome.requestFailure "404") "richers" =
        ProbeOutcome.requestFailure "404" →
      not_implemented_command (some "k") ⟨""⟩ "sublime" "richers"
          (fun _ => ProbeOutcome.requestFailure "404") =
        NotImplRun.ran "k" "richers"
          (NotImplementedOutcome.usageError
            ("'" ++ "richers" ++ "' subcommand is not implemented yet.")
            1))) :=
  ⟨rfl, notImplemented_probe_amended (some "k") ⟨""⟩ "sublime" "richers"
    "k" "404" (fun _ => ProbeOutcome.requestFailure "404") rfl⟩

/-- C10: enrich, analyze and query define no verbosity option, so the
`verbose` key is absent from their params; `params.get("verbose", False)`
therefore yields `False` at every rendering call, and the whole pipeline
behaves identically to one with `verbose` explicitly set to `False`. -/
theorem rendering_verbosity_false (cmdName : String) (fmts : Formatters)
    (params : Params) (result : Value) (ak : Option String)
    (i qs : String) (o df ds : Option String) (f : OutputFormat)
    (hv : params.verbose = none) :
    (enrichParams ak i o f).verbose = none ∧
    (analyzeParams ak i df ds o f).verbose = none ∧
    (queryParams ak i qs o f).verbose = none ∧
    echo_result cmdName fmts params result =
      echo_result cmdName fmts { params with verbose := some false }
        result := by
  refine ⟨rfl, rfl, rfl, ?_⟩
  unfold echo_result
  rw [hv]
  rfl

/-- Witness for C10 on an enrich invocation. -/
theorem rendering_verbosity_false_witness :
    (enrichParams none "report.eml" none OutputFormat.json).verbose =
      none ∧
    ((enrichParams none "a" none OutputFormat.json).verbose = none ∧
      (analyzeParams none "a" none none none OutputFormat.txt).verbose =
        none ∧
      (queryParams none "a" "q" none OutputFormat.txt).verbose = none ∧
      echo_result "enrich" sampleFormatters
          (enrichParams none "report.eml" none OutputFormat.json)
          sampleResult =
        echo_result "enrich" sampleFormatters
          { enrichParams none "report.eml" none OutputFormat.json with
            verbose := some false } sampleResult) :=
  ⟨rfl, rendering_verbosity_false "enrich" sampleFormatters
    (enrichParams none "report.eml" none OutputFormat.json) sampleResult
    none "a" "q" none none none OutputFormat.json rfl⟩

end Theorems

end SublimeCli
